import Mathlib

/-!
Shallow embedding of the Target Delta Computation & Aggregation Engine of
`src/app.py` (Uzeb Sales Targets v8.8.1).

Modelling conventions:
* Python floats are modelled as rationals (`ℚ`); pandas' `NaN` marker for an
  undefined value (e.g. `avg_price`, percentage KPIs) is modelled as `none`
  in an `Option ℚ`.
* A pandas `DataFrame` of normalized sales facts is a `List SalesFact`.
* The per-user delta dictionaries (`user_class_qty`, `user_item_qty`) are
  association lists keyed by the same tuples as the Python dicts; Python
  dicts have unique keys, which theorems assume where it matters.
* `df.groupby(COL_CLASS, dropna := false)` (pandas sorts group keys
  ascending) followed by `sort_values("sales_money", ascending := false)` is
  modelled as sorting the per-class aggregate rows by the total order
  "sales_money descending, class identifier ascending". Caveat: pandas'
  sort_values defaults to the unstable quicksort, so the source specifies
  nothing about the relative order of classes with equal sales_money; the
  model's total order is one deterministic representative of the possible
  tie orders. Every theorem below that goes through `compute_classes` is
  order-insensitive (per-row facts, or sums invariant under permutation),
  so none depends on this representative choice.
-/

namespace Uzeb

/-- Excel source column names, from src/app.py lines 113-118. -/
def COL_AGENT : String := "סוכן בחשבון"

def COL_ACCOUNT : String := "שם חשבון"

def COL_CLASS : String := "שם קוד מיון פריט"

def COL_ITEM : String := "שם פריט"

def COL_QTY : String := "סהכ כמות"

def COL_NET : String := "מכירות/קניות נטו"

/-- MONTHS_IN_YEAR constant (src/app.py line 44). -/
def MONTHS_IN_YEAR : ℚ := 12

/-- One normalized sales-fact row: agent, account, class, item, quantity,
net money (the working columns of the normalized DataFrame). -/
structure SalesFact where
  agent : String
  account : String
  cls : String
  item : String
  qty : ℚ
  net : ℚ
deriving Repr, DecidableEq

/-- One row of `compute_classes`: per-class aggregate with average price
(`avg_price` is `none` exactly where pandas holds `NaN`). -/
structure ClassAgg where
  cls : String
  sales_money : ℚ
  sales_qty : ℚ
  avg_price : Option ℚ
deriving Repr, DecidableEq

/-- safe_div (src/app.py lines 741-744): division that yields the undefined
marker (`NaN` in Python, `none` here) when the divisor is zero. The divisor
is a computed sum so the `pd.isna(b)` branch coincides with nothing here. -/
def safe_div (a b : ℚ) : Option ℚ :=
  if b = 0 then none else some (a / b)

/-- Order in which the model's `compute_classes` emits its rows:
sales_money descending, with equal-money rows by class identifier
ascending. The second component is a modelling choice, not a property of the
source: pandas' unstable quicksort leaves the tie order unspecified (see the
module comment); no theorem below relies on it. -/
def classAggLe (a b : ClassAgg) : Prop :=
  b.sales_money < a.sales_money ∨ (a.sales_money = b.sales_money ∧ a.cls ≤ b.cls)

instance instDecClassAggLe : DecidableRel classAggLe := fun a b =>
  inferInstanceAs (Decidable
    (b.sales_money < a.sales_money ∨ (a.sales_money = b.sales_money ∧ a.cls ≤ b.cls)))

theorem classAggLe_total (a b : ClassAgg) : classAggLe a b ∨ classAggLe b a := by
  rcases lt_trichotomy a.sales_money b.sales_money with h | h | h
  · exact Or.inr (Or.inl h)
  · rcases le_total a.cls b.cls with hc | hc
    · exact Or.inl (Or.inr ⟨h, hc⟩)
    · exact Or.inr (Or.inr ⟨h.symm, hc⟩)
  · exact Or.inl (Or.inl h)

theorem classAggLe_trans {a b c : ClassAgg} (hab : classAggLe a b) (hbc : classAggLe b c) :
    classAggLe a c := by
  rcases hab with h1 | ⟨h1, h1c⟩ <;> rcases hbc with h2 | ⟨h2, h2c⟩
  · exact Or.inl (h2.trans h1)
  · exact Or.inl (h2 ▸ h1)
  · exact Or.inl (h1 ▸ h2)
  · exact Or.inr ⟨h1.trans h2, h1c.trans h2c⟩

instance instTotClassAggLe : IsTotal ClassAgg classAggLe := ⟨classAggLe_total⟩

instance instTransClassAggLe : IsTrans ClassAgg classAggLe := ⟨fun _ _ _ => classAggLe_trans⟩

/-- The aggregate row `compute_classes` builds for class `c` of fact set `df`:
`sales_money = Σ net`, `sales_qty = Σ qty`, `avg_price = safe_div money qty`. -/
def classRow (df : List SalesFact) (c : String) : ClassAgg :=
  let money := ((df.filter fun f => f.cls = c).map (·.net)).sum
  let qty := ((df.filter fun f => f.cls = c).map (·.qty)).sum
  { cls := c, sales_money := money, sales_qty := qty, avg_price := safe_div money qty }

/-- compute_classes (src/app.py lines 795-804): group facts by class, sum
net money and quantity, attach `avg_price = safe_div(sales_money,
sales_qty)`, order rows by sales_money descending. The source's sort
(pandas sort_values, default unstable quicksort) fixes no order among
equal-money rows; the model resolves those ties class-ascending as a
deterministic representative (see module comment), and only
order-insensitive properties are proved from the result. -/
def compute_classes (df : List SalesFact) : List ClassAgg :=
  (((df.map (·.cls)).dedup).map (classRow df)).insertionSort classAggLe

/-- Key of the per-user class-delta dictionary: (username, account, class). -/
abbrev ClassKey := String × String × String

/-- Key of the per-user item-delta dictionary:
(username, account, class, item). -/
abbrev ItemKey := String × String × String × String

/-- In-memory `user_class_qty` dict: (user, account, class) ↦ delta_qty. -/
abbrev ClassDeltaMap := List (ClassKey × ℚ)

/-- In-memory `user_item_qty` dict: (user, account, class, item) ↦ delta_qty. -/
abbrev ItemDeltaMap := List (ItemKey × ℚ)

/-- First-match association-list lookup (Python dict lookup; dict keys are
unique). -/
def lookupKey {κ : Type} [DecidableEq κ] {β : Type} : List (κ × β) → κ → Option β
  | [], _ => none
  | e :: m, k => if e.1 = k then some e.2 else lookupKey m k

/-- get_class_delta_qty (src/app.py lines 881-882): the stored class-level
delta for the key, defaulting to 0 when no row exists. (`or 0.0` on a stored
REAL NOT NULL value is the identity.) -/
def get_class_delta_qty (user_class_qty : ClassDeltaMap) (username account cls : String) : ℚ :=
  match lookupKey user_class_qty (username, account, cls) with
  | some v => v
  | none => 0

/-- sum_item_delta_qty_for_class (src/app.py lines 885-893): sum of all item
deltas stored under (username, account, cls, *). -/
def sum_item_delta_qty_for_class (user_item_qty : ItemDeltaMap)
    (username account cls : String) : ℚ :=
  ((user_item_qty.filter fun e =>
      decide (e.1.1 = username ∧ e.1.2.1 = account ∧ e.1.2.2.1 = cls)).map (·.2)).sum

/-- qty_to_money_row (src/app.py lines 912-917 and 997-1002): convert a
quantity delta to money via avg_price; an undefined or zero price yields 0. -/
def qty_to_money (p : Option ℚ) (dq : ℚ) : ℚ :=
  match p with
  | none => 0
  | some p => if p = 0 then 0 else dq * p

/-- The effective class delta of `build_class_view` (closure `eff_delta`,
src/app.py lines 905-908): class-level delta plus the item roll-up. -/
def eff_delta (user_class_qty : ClassDeltaMap) (user_item_qty : ItemDeltaMap)
    (username account cls : String) : ℚ :=
  get_class_delta_qty user_class_qty username account cls
    + sum_item_delta_qty_for_class user_item_qty username account cls

/-- One row of the single-customer class view (src/app.py lines 896-959;
the Hebrew display renames are dealt with separately, at the column level). -/
structure ClassViewRow where
  cls : String
  sales_money : ℚ
  sales_qty : ℚ
  avg_price : Option ℚ
  delta_money : ℚ
  delta_qty : ℚ
  target_money : ℚ
  target_qty : ℚ
  monthly_avg_2025_qty : ℚ
  monthly_add_qty : ℚ
  monthly_target_2026_qty : ℚ
deriving Repr, DecidableEq

/-- build_class_view (src/app.py lines 896-959): the per-class derived table
for a single (user, account) over the customer's facts. -/
def build_class_view (user_class_qty : ClassDeltaMap) (user_item_qty : ItemDeltaMap)
    (username account : String) (df_customer : List SalesFact) : List ClassViewRow :=
  (compute_classes df_customer).map fun r =>
    let dq := eff_delta user_class_qty user_item_qty username account r.cls
    let dm := qty_to_money r.avg_price dq
    { cls := r.cls
      sales_money := r.sales_money
      sales_qty := r.sales_qty
      avg_price := r.avg_price
      delta_money := dm
      delta_qty := dq
      target_money := r.sales_money + dm
      target_qty := r.sales_qty + dq
      monthly_avg_2025_qty := r.sales_qty / MONTHS_IN_YEAR
      monthly_add_qty := dq / MONTHS_IN_YEAR
      monthly_target_2026_qty := (r.sales_qty + dq) / MONTHS_IN_YEAR }

/-- Accounts appearing in a scope's fact rows (normalized facts always carry
an account, so pandas' dropna is the identity here). -/
def accountsOf (df : List SalesFact) : List String :=
  (df.map (·.account)).dedup

/-- _allowed_accounts (src/app.py lines 962-966): all scope accounts when no
selection was made, otherwise the selection intersected with the scope. -/
def allowed_accounts (df_scope : List SalesFact)
    (selected_accounts : Option (List String)) : List String :=
  match selected_accounts with
  | none => accountsOf df_scope
  | some sel => (accountsOf df_scope).filter fun a => decide (a ∈ sel)

/-- agg_eff_delta_qty (closure in compute_scope_kpi_money /
compute_scope_kpi_qty, src/app.py lines 979-993 and 1024-1038): sum of all
class-level and item-level deltas of `username` for class `cls` whose
account lies in `allowed`. -/
def agg_eff_delta_qty (user_class_qty : ClassDeltaMap) (user_item_qty : ItemDeltaMap)
    (username : String) (allowed : List String) (cls : String) : ℚ :=
  ((user_class_qty.filter fun e =>
      decide (e.1.1 = username ∧ e.1.2.1 ∈ allowed ∧ e.1.2.2 = cls)).map (·.2)).sum
    + ((user_item_qty.filter fun e =>
        decide (e.1.1 = username ∧ e.1.2.1 ∈ allowed ∧ e.1.2.2.1 = cls)).map (·.2)).sum

/-- Scope-level money KPI tuple returned by compute_scope_kpi_money. -/
structure KpiMoney where
  s2025 : ℚ
  s2026 : ℚ
  diff : ℚ
  pct : Option ℚ
deriving Repr, DecidableEq

/-- compute_scope_kpi_money (src/app.py lines 969-1011). -/
def compute_scope_kpi_money (username : String) (df_scope : List SalesFact)
    (user_class_qty : ClassDeltaMap) (user_item_qty : ItemDeltaMap)
    (selected_accounts : Option (List String)) : KpiMoney :=
  let class_sales := compute_classes df_scope
  let allowed := allowed_accounts df_scope selected_accounts
  let s2025 := (class_sales.map (·.sales_money)).sum
  let add_money := (class_sales.map fun r =>
    qty_to_money r.avg_price
      (agg_eff_delta_qty user_class_qty user_item_qty username allowed r.cls)).sum
  let s2026 := s2025 + add_money
  { s2025 := s2025
    s2026 := s2026
    diff := s2026 - s2025
    pct := if 0 < s2025 then (safe_div s2026 s2025).map (fun x => x * 100 - 100) else none }

/-- Scope-level quantity KPI tuple returned by compute_scope_kpi_qty. -/
structure KpiQty where
  q2025 : ℚ
  q2026 : ℚ
  diff : ℚ
  pct : Option ℚ
deriving Repr, DecidableEq

/-- compute_scope_kpi_qty (src/app.py lines 1014-1047). -/
def compute_scope_kpi_qty (username : String) (df_scope : List SalesFact)
    (user_class_qty : ClassDeltaMap) (user_item_qty : ItemDeltaMap)
    (selected_accounts : Option (List String)) : KpiQty :=
  let class_sales := compute_classes df_scope
  let allowed := allowed_accounts df_scope selected_accounts
  let q2025 := (class_sales.map (·.sales_qty)).sum
  let add_qty := (class_sales.map fun r =>
    agg_eff_delta_qty user_class_qty user_item_qty username allowed r.cls).sum
  let q2026 := q2025 + add_qty
  { q2025 := q2025
    q2026 := q2026
    diff := q2026 - q2025
    pct := if 0 < q2025 then (safe_div q2026 q2025).map (fun x => x * 100 - 100) else none }

/-- Modelled from the spec: the source keeps no Legacy Money Delta store at
all — its schema (src/app.py lines 233-263) has only `user_class_delta_qty`
and `user_item_delta_qty`, and `get_class_delta_qty` consults nothing else —
so the class-level resolution chain of spec §4.2 (Class Delta row if present;
else legacy money ÷ avg_price when both are non-zero and the price defined;
else 0) is reproduced here from the spec's words, for comparison with the
code's resolution. -/
def class_delta_resolved_spec (classDeltas legacyMoney : ClassDeltaMap)
    (avg_price : Option ℚ) (username account cls : String) : ℚ :=
  match lookupKey classDeltas (username, account, cls) with
  | some v => v
  | none =>
    match lookupKey legacyMoney (username, account, cls), avg_price with
    | some m, some p => if m ≠ 0 ∧ p ≠ 0 then m / p else 0
    | _, _ => 0

-- =========================
-- Helper lemmas
-- =========================

theorem lookupKey_eq_none {κ : Type} [DecidableEq κ] {β : Type}
    (m : List (κ × β)) (k : κ) (h : k ∉ m.map (·.1)) : lookupKey m k = none := by
  induction m with
  | nil => rfl
  | cons e m ih =>
    simp only [List.map_cons, List.mem_cons, not_or] at h
    rw [lookupKey, if_neg (fun he : e.1 = k => h.1 he.symm)]
    exact ih h.2

theorem sum_item_cons (e : ItemKey × ℚ) (m : ItemDeltaMap) (u a c : String) :
    sum_item_delta_qty_for_class (e :: m) u a c
      = (if e.1.1 = u ∧ e.1.2.1 = a ∧ e.1.2.2.1 = c then e.2 else 0)
        + sum_item_delta_qty_for_class m u a c := by
  unfold sum_item_delta_qty_for_class
  by_cases h : e.1.1 = u ∧ e.1.2.1 = a ∧ e.1.2.2.1 = c
  · simp [List.filter_cons, h]
  · simp [List.filter_cons, h]

theorem mem_build_class_view {ucq : ClassDeltaMap} {uiq : ItemDeltaMap}
    {u a : String} {df : List SalesFact} {row : ClassViewRow}
    (h : row ∈ build_class_view ucq uiq u a df) :
    ∃ r ∈ compute_classes df,
      row = { cls := r.cls
              sales_money := r.sales_money
              sales_qty := r.sales_qty
              avg_price := r.avg_price
              delta_money := qty_to_money r.avg_price (eff_delta ucq uiq u a r.cls)
              delta_qty := eff_delta ucq uiq u a r.cls
              target_money := r.sales_money
                + qty_to_money r.avg_price (eff_delta ucq uiq u a r.cls)
              target_qty := r.sales_qty + eff_delta ucq uiq u a r.cls
              monthly_avg_2025_qty := r.sales_qty / MONTHS_IN_YEAR
              monthly_add_qty := eff_delta ucq uiq u a r.cls / MONTHS_IN_YEAR
              monthly_target_2026_qty :=
                (r.sales_qty + eff_delta ucq uiq u a r.cls) / MONTHS_IN_YEAR } := by
  rcases List.mem_map.mp h with ⟨r, hr, hrow⟩
  exact ⟨r, hr, hrow.symm⟩

theorem mem_compute_classes {df : List SalesFact} {r : ClassAgg}
    (h : r ∈ compute_classes df) : r = classRow df r.cls := by
  have h2 : r ∈ ((df.map (·.cls)).dedup).map (classRow df) :=
    (List.mem_insertionSort classAggLe).mp h
  rcases List.mem_map.mp h2 with ⟨c, _, hc⟩
  have : (classRow df c).cls = c := rfl
  rw [← hc, this]

theorem classRow_avg (df : List SalesFact) (c : String) :
    (classRow df c).avg_price = safe_div (classRow df c).sales_money (classRow df c).sales_qty :=
  rfl

-- =========================
-- C1 — legacy fallback chain
-- =========================

/-- C1 counterexample: the spec's legacy fallback chain (no Class Delta row,
legacy money delta M = 100, avg_price P = 10 defined and non-zero) demands an
effective class delta of M / P = 10, but on a fact set realizing exactly
avg_price 10 for class "c" the code resolves the delta of every class to 0:
`get_class_delta_qty` reads only the class-delta dict and the program keeps
no legacy money store to fall back to. -/
theorem legacy_fallback_absent_cx :
    class_delta_resolved_spec [] [(("u", "a", "c"), 100)] (some 10) "u" "a" "c" = 10
      ∧ (∀ row ∈ build_class_view [] [] "u" "a"
          [{ agent := "ag", account := "a", cls := "c", item := "i", qty := 10, net := 100 }],
          row.delta_qty = 0)
      ∧ (10 : ℚ) ≠ 0 := by
  refine ⟨?_, ?_, by norm_num⟩
  · show (if (100 : ℚ) ≠ 0 ∧ (10 : ℚ) ≠ 0 then (100 : ℚ) / 10 else 0) = 10
    norm_num
  · intro row hrow
    rcases mem_build_class_view hrow with ⟨r, _, hrw⟩
    subst hrw
    show eff_delta [] [] "u" "a" r.cls = 0
    simp [eff_delta, get_class_delta_qty, sum_item_delta_qty_for_class, lookupKey]

/-- C1 amended: the code performs no legacy money-to-quantity conversion.
Class-level resolution is a pure dictionary read: when no Class Delta row
exists for the (user, account, class) key, the resolved class delta is 0
(legacy money deltas are never consulted — the program stores none); when a
row exists, its delta_qty is authoritative. -/
theorem class_delta_no_legacy_fallback (m : ClassDeltaMap) (u a c : String) :
    ((u, a, c) ∉ m.map (·.1) → get_class_delta_qty m u a c = 0)
      ∧ (∀ v, lookupKey m (u, a, c) = some v → get_class_delta_qty m u a c = v) := by
  constructor
  · intro h
    rw [get_class_delta_qty, lookupKey_eq_none m _ h]
  · intro v hv
    rw [get_class_delta_qty, hv]

/-- C1 witness: concrete instantiation of `class_delta_no_legacy_fallback`
on the one-row dict {("u","a","c") ↦ 5}. -/
theorem class_delta_no_legacy_fallback_wit :
    get_class_delta_qty [(("u", "a", "c"), 5)] "u" "b" "c" = 0
      ∧ get_class_delta_qty [(("u", "a", "c"), 5)] "u" "a" "c" = 5 :=
  ⟨(class_delta_no_legacy_fallback [(("u", "a", "c"), 5)] "u" "b" "c").1 (by decide),
   (class_delta_no_legacy_fallback [(("u", "a", "c"), 5)] "u" "a" "c").2 5 (by decide)⟩

-- =========================
-- C2 — roll-up law
-- =========================

/-- C2: roll-up law. In the single-account class view, every row's effective
delta_qty is the class-level resolved delta plus the sum of the item deltas
stored under that class for the same user/account; and inserting one new
item delta for class `c` moves every row of class `c` by exactly that
amount while every other class's row keeps its old total. -/
theorem class_view_rollup (ucq : ClassDeltaMap) (uiq : ItemDeltaMap)
    (u a : String) (df : List SalesFact) :
    (∀ row ∈ build_class_view ucq uiq u a df,
        row.delta_qty = get_class_delta_qty ucq u a row.cls
          + sum_item_delta_qty_for_class uiq u a row.cls)
      ∧ (∀ c i dq, (u, a, c, i) ∉ uiq.map (·.1) →
          ∀ row ∈ build_class_view ucq (((u, a, c, i), dq) :: uiq) u a df,
            row.delta_qty
              = (get_class_delta_qty ucq u a row.cls
                  + sum_item_delta_qty_for_class uiq u a row.cls)
                + (if row.cls = c then dq else 0)) := by
  constructor
  · intro row hrow
    rcases mem_build_class_view hrow with ⟨r, _, hrw⟩
    subst hrw
    rfl
  · intro c i dq _ row hrow
    rcases mem_build_class_view hrow with ⟨r, _, hrw⟩
    subst hrw
    show eff_delta ucq (((u, a, c, i), dq) :: uiq) u a r.cls = _
    rw [eff_delta, sum_item_cons]
    by_cases hc : r.cls = c
    · simp [hc]
      ring
    · rw [if_neg (fun h : (u, a, c, i).1 = u ∧ (u, a, c, i).2.1 = a ∧ (u, a, c, i).2.2.1 = r.cls =>
            hc h.2.2.symm),
        if_neg hc]
      show get_class_delta_qty ucq u a r.cls + (0 + sum_item_delta_qty_for_class uiq u a r.cls) = _
      ring

/-- C2 witness: on the one-fact customer {class "A", qty 10, net 1000} with
empty delta dicts, inserting the item delta ("u","a","A","i1") ↦ 5 moves
class "A"'s effective delta by exactly 5. -/
theorem class_view_rollup_wit :
    (("u", "a", "A", "i1") ∉ (([] : ItemDeltaMap)).map (·.1))
      ∧ ∀ row ∈ build_class_view [] [(("u", "a", "A", "i1"), 5)] "u" "a"
          [{ agent := "ag", account := "a", cls := "A", item := "i1", qty := 10, net := 1000 }],
          row.delta_qty
            = (get_class_delta_qty [] "u" "a" row.cls
                + sum_item_delta_qty_for_class [] "u" "a" row.cls)
              + (if row.cls = "A" then 5 else 0) :=
  ⟨by simp,
   (class_view_rollup [] [] "u" "a"
      [{ agent := "ag", account := "a", cls := "A", item := "i1", qty := 10, net := 1000 }]).2
    "A" "i1" 5 (by simp)⟩

-- =========================
-- C3 — delta_money derivation
-- =========================

/-- C3: in every derived class row, delta_money = delta_qty * avg_price when
avg_price is defined (also when it is a defined 0) and 0 when avg_price is
undefined; and a class with sales_qty = 0 has the undefined avg_price marker
(not zero) and delta_money 0, whatever delta_qty was set. -/
theorem class_view_delta_money_law (ucq : ClassDeltaMap) (uiq : ItemDeltaMap)
    (u a : String) (df : List SalesFact) :
    ∀ row ∈ build_class_view ucq uiq u a df,
      (∀ p, row.avg_price = some p → row.delta_money = row.delta_qty * p)
        ∧ (row.avg_price = none → row.delta_money = 0)
        ∧ (row.sales_qty = 0 → row.avg_price = none ∧ row.delta_money = 0) := by
  intro row hrow
  rcases mem_build_class_view hrow with ⟨r, hr, hrw⟩
  have havg : r.avg_price = safe_div r.sales_money r.sales_qty := by
    rw [mem_compute_classes hr]
    exact classRow_avg df r.cls
  have hA : row.avg_price = r.avg_price := by rw [hrw]
  have hD : row.delta_money = qty_to_money r.avg_price (eff_delta ucq uiq u a r.cls) := by
    rw [hrw]
  have hQ : row.delta_qty = eff_delta ucq uiq u a r.cls := by rw [hrw]
  have hS : row.sales_qty = r.sales_qty := by rw [hrw]
  refine ⟨?_, ?_, ?_⟩
  · intro p hp
    rw [hA] at hp
    rw [hD, hQ, hp, qty_to_money]
    by_cases hp0 : p = 0
    · rw [if_pos hp0, hp0, mul_zero]
    · rw [if_neg hp0]
  · intro hp
    rw [hA] at hp
    rw [hD, hp, qty_to_money]
  · intro hq
    rw [hS] at hq
    have hnone : r.avg_price = none := by
      rw [havg, hq, safe_div, if_pos rfl]
    rw [hA, hD, hnone, qty_to_money]
    exact ⟨rfl, rfl⟩

/-- C3 witness: the customer {class "A": 10 units, net 1000} with class delta
+2 yields the row with avg_price 100, and its delta_money is delta_qty * 100
by `class_view_delta_money_law`. -/
theorem class_view_delta_money_law_wit :
    ∃ row ∈ build_class_view [(("u", "a", "A"), 2)] [] "u" "a"
        [{ agent := "g", account := "a", cls := "A", item := "i", qty := 10, net := 1000 }],
      row.avg_price = some 100 ∧ row.delta_money = row.delta_qty * 100 := by
  have hlist : build_class_view [(("u", "a", "A"), 2)] [] "u" "a"
      [{ agent := "g", account := "a", cls := "A", item := "i", qty := 10, net := 1000 }]
      = [{ cls := "A", sales_money := 1000, sales_qty := 10, avg_price := some 100,
           delta_money := 200, delta_qty := 2, target_money := 1200, target_qty := 12,
           monthly_avg_2025_qty := 5 / 6, monthly_add_qty := 1 / 6,
           monthly_target_2026_qty := 1 }] := by
    norm_num [build_class_view, compute_classes, classRow, safe_div, eff_delta,
      get_class_delta_qty, sum_item_delta_qty_for_class, qty_to_money, lookupKey,
      List.insertionSort, List.orderedInsert, MONTHS_IN_YEAR]
  have hmem : ({ cls := "A", sales_money := 1000, sales_qty := 10, avg_price := some 100,
                 delta_money := 200, delta_qty := 2, target_money := 1200, target_qty := 12,
                 monthly_avg_2025_qty := 5 / 6, monthly_add_qty := 1 / 6,
                 monthly_target_2026_qty := 1 } : ClassViewRow)
      ∈ build_class_view [(("u", "a", "A"), 2)] [] "u" "a"
        [{ agent := "g", account := "a", cls := "A", item := "i", qty := 10, net := 1000 }] := by
    rw [hlist]
    exact List.mem_singleton.mpr rfl
  exact ⟨_, hmem, rfl,
    (class_view_delta_money_law [(("u", "a", "A"), 2)] [] "u" "a"
        [{ agent := "g", account := "a", cls := "A", item := "i", qty := 10, net := 1000 }]
        _ hmem).1 100 rfl⟩

-- =========================
-- C6 — growth_pct definedness
-- =========================

/-- C6: for both scope KPIs, growth_pct = (target / base * 100) - 100 when
the base is positive, and is the undefined marker (`none`, pandas `NaN`),
not zero, when the base is not positive. -/
theorem scope_growth_pct (u : String) (df : List SalesFact) (ucq : ClassDeltaMap)
    (uiq : ItemDeltaMap) (sel : Option (List String)) :
    ((0 < (compute_scope_kpi_money u df ucq uiq sel).s2025 →
        (compute_scope_kpi_money u df ucq uiq sel).pct
          = some ((compute_scope_kpi_money u df ucq uiq sel).s2026
              / (compute_scope_kpi_money u df ucq uiq sel).s2025 * 100 - 100))
      ∧ (¬ 0 < (compute_scope_kpi_money u df ucq uiq sel).s2025 →
          (compute_scope_kpi_money u df ucq uiq sel).pct = none))
    ∧ ((0 < (compute_scope_kpi_qty u df ucq uiq sel).q2025 →
        (compute_scope_kpi_qty u df ucq uiq sel).pct
          = some ((compute_scope_kpi_qty u df ucq uiq sel).q2026
              / (compute_scope_kpi_qty u df ucq uiq sel).q2025 * 100 - 100))
      ∧ (¬ 0 < (compute_scope_kpi_qty u df ucq uiq sel).q2025 →
          (compute_scope_kpi_qty u df ucq uiq sel).pct = none)) := by
  refine ⟨⟨?_, ?_⟩, ⟨?_, ?_⟩⟩
  · intro h
    show (if 0 < (compute_scope_kpi_money u df ucq uiq sel).s2025 then
        (safe_div (compute_scope_kpi_money u df ucq uiq sel).s2026
          (compute_scope_kpi_money u df ucq uiq sel).s2025).map (fun x => x * 100 - 100)
      else none) = _
    rw [if_pos h, safe_div, if_neg h.ne']
    rfl
  · intro h
    show (if 0 < (compute_scope_kpi_money u df ucq uiq sel).s2025 then
        (safe_div (compute_scope_kpi_money u df ucq uiq sel).s2026
          (compute_scope_kpi_money u df ucq uiq sel).s2025).map (fun x => x * 100 - 100)
      else none) = none
    rw [if_neg h]
  · intro h
    show (if 0 < (compute_scope_kpi_qty u df ucq uiq sel).q2025 then
        (safe_div (compute_scope_kpi_qty u df ucq uiq sel).q2026
          (compute_scope_kpi_qty u df ucq uiq sel).q2025).map (fun x => x * 100 - 100)
      else none) = _
    rw [if_pos h, safe_div, if_neg h.ne']
    rfl
  · intro h
    show (if 0 < (compute_scope_kpi_qty u df ucq uiq sel).q2025 then
        (safe_div (compute_scope_kpi_qty u df ucq uiq sel).q2026
          (compute_scope_kpi_qty u df ucq uiq sel).q2025).map (fun x => x * 100 - 100)
      else none) = none
    rw [if_neg h]

/-- C6 witness: a scope with base 1000 and a +2 class delta at avg_price 100
has positive base, so both growth percentages are the defined formula value. -/
theorem scope_growth_pct_wit :
    (compute_scope_kpi_money "u"
        [{ agent := "g", account := "a", cls := "A", item := "i", qty := 10, net := 1000 }]
        [(("u", "a", "A"), 2)] [] none).pct
      = some ((compute_scope_kpi_money "u"
            [{ agent := "g", account := "a", cls := "A", item := "i", qty := 10, net := 1000 }]
            [(("u", "a", "A"), 2)] [] none).s2026
          / (compute_scope_kpi_money "u"
              [{ agent := "g", account := "a", cls := "A", item := "i", qty := 10, net := 1000 }]
              [(("u", "a", "A"), 2)] [] none).s2025 * 100 - 100)
      ∧ (compute_scope_kpi_qty "u"
          [{ agent := "g", account := "a", cls := "A", item := "i", qty := 10, net := 1000 }]
          [(("u", "a", "A"), 2)] [] none).pct
        = some ((compute_scope_kpi_qty "u"
              [{ agent := "g", account := "a", cls := "A", item := "i", qty := 10, net := 1000 }]
              [(("u", "a", "A"), 2)] [] none).q2026
            / (compute_scope_kpi_qty "u"
                [{ agent := "g", account := "a", cls := "A", item := "i", qty := 10, net := 1000 }]
                [(("u", "a", "A"), 2)] [] none).q2025 * 100 - 100) :=
  ⟨(scope_growth_pct "u"
      [{ agent := "g", account := "a", cls := "A", item := "i", qty := 10, net := 1000 }]
      [(("u", "a", "A"), 2)] [] none).1.1
    (by norm_num [compute_scope_kpi_money, compute_classes, classRow, safe_div,
      List.insertionSort, List.orderedInsert]),
   (scope_growth_pct "u"
      [{ agent := "g", account := "a", cls := "A", item := "i", qty := 10, net := 1000 }]
      [(("u", "a", "A"), 2)] [] none).2.1
    (by norm_num [compute_scope_kpi_qty, compute_classes, classRow, safe_div,
      List.insertionSort, List.orderedInsert])⟩

-- =========================
-- C7 — compute_classes output shape (order-insensitive)
-- =========================

theorem classRow_cls (df : List SalesFact) (c : String) : (classRow df c).cls = c := rfl

theorem compute_classes_perm (df : List SalesFact) :
    List.Perm (compute_classes df) (((df.map (·.cls)).dedup).map (classRow df)) :=
  List.perm_insertionSort classAggLe _

theorem cls_of_compute_classes (df : List SalesFact) :
    List.Perm ((compute_classes df).map (·.cls)) ((df.map (·.cls)).dedup) := by
  have h := (compute_classes_perm df).map (·.cls)
  simpa [List.map_map, Function.comp_def, classRow_cls] using h

theorem sum_map_add {α : Type} (f g : α → ℚ) (l : List α) :
    (l.map fun x => f x + g x).sum = (l.map f).sum + (l.map g).sum := by
  induction l with
  | nil => simp
  | cons x l ih =>
    simp [ih]
    ring

theorem sum_ite_zero {β : Type} [DecidableEq β] (cs : List β) (b : β) (v : ℚ)
    (h : b ∉ cs) : (cs.map fun c => if b = c then v else 0).sum = 0 := by
  induction cs with
  | nil => simp
  | cons c cs ih =>
    simp only [List.mem_cons, not_or] at h
    simp [if_neg h.1, ih h.2]

theorem sum_ite_of_mem {β : Type} [DecidableEq β] (cs : List β) (b : β) (v : ℚ)
    (hnd : cs.Nodup) (hb : b ∈ cs) :
    (cs.map fun c => if b = c then v else 0).sum = v := by
  induction cs with
  | nil => cases hb
  | cons c cs ih =>
    rcases List.mem_cons.mp hb with rfl | hb2
    · simp [sum_ite_zero cs b v (List.nodup_cons.mp hnd).1]
    · have hbc : b ≠ c := fun h => ((List.nodup_cons.mp hnd).1 (h ▸ hb2)).elim
      simp [if_neg hbc, ih (List.nodup_cons.mp hnd).2 hb2]

theorem sum_over_groups {α β : Type} [DecidableEq β] (key : α → β) (val : α → ℚ)
    (cs : List β) (hnd : cs.Nodup) :
    ∀ l : List α, (∀ x ∈ l, key x ∈ cs) →
      (cs.map fun c => ((l.filter fun x => key x = c).map val).sum).sum = (l.map val).sum := by
  intro l
  induction l with
  | nil =>
    intro _
    simp
  | cons x l ih =>
    intro hmem
    have hx : key x ∈ cs := hmem x (List.mem_cons_self x l)
    have hl : ∀ y ∈ l, key y ∈ cs := fun y hy => hmem y (List.mem_cons_of_mem x hy)
    have hstep : ∀ c ∈ cs,
        (((x :: l).filter fun y => key y = c).map val).sum
          = (if key x = c then val x else 0) + ((l.filter fun y => key y = c).map val).sum := by
      intro c _
      by_cases hc : key x = c
      · simp [List.filter_cons, hc]
      · simp [List.filter_cons, hc]
    rw [List.map_congr_left hstep, sum_map_add, sum_ite_of_mem cs (key x) (val x) hnd hx,
      ih hl]
    simp

/-- C7: conservation of totals — the sales_money column of the Class
Aggregator output sums to exactly the net_money total of the input facts. -/
theorem classes_money_conservation (df : List SalesFact) :
    ((compute_classes df).map (·.sales_money)).sum = (df.map (·.net)).sum := by
  have hperm := (compute_classes_perm df).map (·.sales_money)
  rw [hperm.sum_eq, List.map_map]
  have hfun : ((·.sales_money) ∘ classRow df)
      = fun c => ((df.filter fun f => f.cls = c).map (·.net)).sum := rfl
  rw [hfun]
  exact sum_over_groups (·.cls) (·.net) ((df.map (·.cls)).dedup) (List.nodup_dedup _) df
    (fun x hx => List.mem_dedup.mpr (List.mem_map_of_mem _ hx))

-- =========================
-- C4 — scope selection law
-- =========================

theorem agg_cons_class_skip (e : ClassKey × ℚ) (ucq : ClassDeltaMap) (uiq : ItemDeltaMap)
    (u : String) (allowed : List String) (cls : String) (h : e.1.2.1 ∉ allowed) :
    agg_eff_delta_qty (e :: ucq) uiq u allowed cls = agg_eff_delta_qty ucq uiq u allowed cls := by
  unfold agg_eff_delta_qty
  have hcond : ¬(e.1.1 = u ∧ e.1.2.1 ∈ allowed ∧ e.1.2.2 = cls) := fun hh => h hh.2.1
  simp [List.filter_cons, hcond]

theorem agg_cons_item_skip (e : ItemKey × ℚ) (ucq : ClassDeltaMap) (uiq : ItemDeltaMap)
    (u : String) (allowed : List String) (cls : String) (h : e.1.2.1 ∉ allowed) :
    agg_eff_delta_qty ucq (e :: uiq) u allowed cls = agg_eff_delta_qty ucq uiq u allowed cls := by
  unfold agg_eff_delta_qty
  have hcond : ¬(e.1.1 = u ∧ e.1.2.1 ∈ allowed ∧ e.1.2.2.1 = cls) := fun hh => h hh.2.1
  simp [List.filter_cons, hcond]

theorem not_mem_allowed_of_not_sel {df : List SalesFact} {sel : List String} {x : String}
    (h : x ∉ sel) : x ∉ allowed_accounts df (some sel) := by
  intro hx
  rw [allowed_accounts] at hx
  exact h (by simpa using (List.mem_filter.mp hx).2)

theorem kpi_money_skip_class (df : List SalesFact) (sel : List String) (e : ClassKey × ℚ)
    (ucq : ClassDeltaMap) (uiq : ItemDeltaMap) (u : String) (h : e.1.2.1 ∉ sel) :
    compute_scope_kpi_money u df (e :: ucq) uiq (some sel)
      = compute_scope_kpi_money u df ucq uiq (some sel) := by
  have hagg : ∀ r ∈ compute_classes df,
      qty_to_money r.avg_price
        (agg_eff_delta_qty (e :: ucq) uiq u (allowed_accounts df (some sel)) r.cls)
        = qty_to_money r.avg_price
            (agg_eff_delta_qty ucq uiq u (allowed_accounts df (some sel)) r.cls) := by
    intro r _
    rw [agg_cons_class_skip e ucq uiq u _ r.cls (not_mem_allowed_of_not_sel h)]
  simp only [compute_scope_kpi_money]
  rw [List.map_congr_left hagg]

theorem kpi_money_skip_item (df : List SalesFact) (sel : List String) (e : ItemKey × ℚ)
    (ucq : ClassDeltaMap) (uiq : ItemDeltaMap) (u : String) (h : e.1.2.1 ∉ sel) :
    compute_scope_kpi_money u df ucq (e :: uiq) (some sel)
      = compute_scope_kpi_money u df ucq uiq (some sel) := by
  have hagg : ∀ r ∈ compute_classes df,
      qty_to_money r.avg_price
        (agg_eff_delta_qty ucq (e :: uiq) u (allowed_accounts df (some sel)) r.cls)
        = qty_to_money r.avg_price
            (agg_eff_delta_qty ucq uiq u (allowed_accounts df (some sel)) r.cls) := by
    intro r _
    rw [agg_cons_item_skip e ucq uiq u _ r.cls (not_mem_allowed_of_not_sel h)]
  simp only [compute_scope_kpi_money]
  rw [List.map_congr_left hagg]

/-- C4: scope delta summation respects the selection. With no selection the
allowed-account set is exactly the accounts of the scope's fact rows; with a
selection it is the selection intersected with the scope; and with more than
one selected account, a delta keyed to an unselected account (class-level or
item-level) contributes nothing: inserting it leaves the money KPI unchanged. -/
theorem scope_kpi_selection (df : List SalesFact) (ucq : ClassDeltaMap)
    (uiq : ItemDeltaMap) (u : String) :
    (allowed_accounts df none = accountsOf df)
      ∧ (∀ sel a, a ∈ allowed_accounts df (some sel) ↔ a ∈ accountsOf df ∧ a ∈ sel)
      ∧ (∀ sel, 1 < sel.length → ∀ u' acc c dq, acc ∉ sel →
          compute_scope_kpi_money u df (((u', acc, c), dq) :: ucq) uiq (some sel)
            = compute_scope_kpi_money u df ucq uiq (some sel))
      ∧ (∀ sel, 1 < sel.length → ∀ u' acc c i dq, acc ∉ sel →
          compute_scope_kpi_money u df ucq (((u', acc, c, i), dq) :: uiq) (some sel)
            = compute_scope_kpi_money u df ucq uiq (some sel)) := by
  refine ⟨rfl, ?_, ?_, ?_⟩
  · intro sel a
    simp [allowed_accounts, List.mem_filter]
  · intro sel _ u' acc c dq hacc
    exact kpi_money_skip_class df sel ((u', acc, c), dq) ucq uiq u hacc
  · intro sel _ u' acc c i dq hacc
    exact kpi_money_skip_item df sel ((u', acc, c, i), dq) ucq uiq u hacc

/-- C4 witness: on a two-account scope with both accounts selected, inserting
a class delta and an item delta keyed to the unselected account "zz" leaves
the scope money KPI unchanged. -/
theorem scope_kpi_selection_wit :
    compute_scope_kpi_money "u"
        [{ agent := "g", account := "a1", cls := "A", item := "i", qty := 1, net := 10 },
         { agent := "g", account := "a2", cls := "A", item := "i", qty := 1, net := 20 }]
        [(("u", "zz", "A"), 7)] [] (some ["a1", "a2"])
      = compute_scope_kpi_money "u"
          [{ agent := "g", account := "a1", cls := "A", item := "i", qty := 1, net := 10 },
           { agent := "g", account := "a2", cls := "A", item := "i", qty := 1, net := 20 }]
          [] [] (some ["a1", "a2"]) :=
  (scope_kpi_selection
      [{ agent := "g", account := "a1", cls := "A", item := "i", qty := 1, net := 10 },
       { agent := "g", account := "a2", cls := "A", item := "i", qty := 1, net := 20 }]
      [] [] "u").2.2.1 ["a1", "a2"] (by decide) "u" "zz" "A" 7 (by decide)

-- =========================
-- Visibility filter (C8 / C9)
-- =========================

/-- user_can_see_col (src/app.py lines 774-777): admins see everything, a
regular user sees a column iff its source name is in the configured visible
set. -/
def user_can_see_col (col_name : String) (is_admin : Bool)
    (user_visible_cols : List String) : Bool :=
  if is_admin then true else decide (col_name ∈ user_visible_cols)

/-- user_can_see_money (src/app.py lines 780-781). -/
def user_can_see_money (is_admin : Bool) (user_visible_cols : List String) : Bool :=
  user_can_see_col COL_NET is_admin user_visible_cols

/-- user_can_see_qty (src/app.py lines 784-785). -/
def user_can_see_qty (is_admin : Bool) (user_visible_cols : List String) : Bool :=
  user_can_see_col COL_QTY is_admin user_visible_cols

/-- user_can_see_item (src/app.py lines 788-789). -/
def user_can_see_item (is_admin : Bool) (user_visible_cols : List String) : Bool :=
  user_can_see_col COL_ITEM is_admin user_visible_cols

/-- all_possible_cols of the class-editor table (src/app.py lines 1726-1738). -/
def all_possible_cols : List String :=
  ["שם קוד מיון פריט", "מכירות_בכסף", "מכירות_בכמות", "מחיר_ממוצע",
   "ממוצע_חודשי_כמות_2025", "תוספת_יעד_כמות", "תוספת_חודשית_כמות",
   "תוספת_יעד_כסף", "יעד_בכסף", "יעד_בכמות", "יעד_חודשי_כמות_2026"]

/-- allowed_cols of the class editor (src/app.py lines 1740-1752): the class
name always, the money block iff CAN_SEE_MONEY, the quantity block iff
CAN_SEE_QTY, re-ordered along all_possible_cols. -/
def allowed_cols (can_money can_qty : Bool) : List String :=
  let base := ["שם קוד מיון פריט"]
    ++ (if can_money then ["מכירות_בכסף", "מחיר_ממוצע", "תוספת_יעד_כסף", "יעד_בכסף"] else [])
    ++ (if can_qty then
          ["מכירות_בכמות", "ממוצע_חודשי_כמות_2025", "תוספת_יעד_כמות",
           "תוספת_חודשית_כמות", "יעד_בכמות", "יעד_חודשי_כמות_2026"]
        else [])
  all_possible_cols.filter fun c => decide (c ∈ base)

/-- The columns the class editor finally displays (src/app.py lines
1786-1800): the user's multiselect `picked` is augmented with the must-have
columns and then intersected with allowed_cols in allowed_cols order. -/
def editor_shown_cols (can_money can_qty : Bool) (picked : List String) : List String :=
  let allowed := allowed_cols can_money can_qty
  let must := ["שם קוד מיון פריט", "תוספת_יעד_כמות"]
  let picked2 := picked ++ must.filter fun c => decide (c ∈ allowed ∧ c ∉ picked)
  allowed.filter fun c => decide (c ∈ picked2)

/-- Columns of the customer table (src/app.py lines 1576-1592): admin sees
name, total money, total quantity and share; a regular user sees name, total
quantity and share — with no dependence on the per-column permission set. -/
def cust_table_cols (is_admin : Bool) : List String :=
  if is_admin then ["שם לקוח", "סהכ_כסף", "סהכ_כמות", "נתח (%)"]
  else ["שם לקוח", "סהכ_כמות", "נתח (%)"]

/-- Columns of the per-item editor table (src/app.py lines 1911-1985): no
table at all when neither money nor quantity may be shown (`agg_map` empty);
otherwise class and item name, the quantity sales block iff CAN_SEE_QTY, the
delta/target/monthly quantity block always, and the money block iff
CAN_SEE_MONEY. -/
def item_editor_cols (can_money can_qty : Bool) : Option (List String) :=
  if can_money = false ∧ can_qty = false then none
  else some (["קוד מיון", "שם פריט"]
    ++ (if can_qty then ["מכירות_בכמות", "ממוצע_חודשי_כמות_2025"] else [])
    ++ ["תוספת_יעד_כמות", "תוספת_חודשית_כמות", "יעד_בכמות", "יעד_חודשי_כמות_2026"]
    ++ (if can_money then ["מכירות_בכסף", "מחיר_ממוצע", "תוספת_יעד_כסף", "יעד_בכסף"] else []))

/-- Which KPI block the page renders. -/
inductive KpiKind where
  | money
  | qty
deriving Repr, DecidableEq

/-- KPI block choice (src/app.py lines 1626-1650): the money KPI iff
CAN_SEE_MONEY, else the quantity KPI — in both the company-wide and the
per-agent branch. -/
def kpi_block_choice (can_money : Bool) : KpiKind :=
  if can_money then KpiKind.money else KpiKind.qty

/-- Excel report gate (src/app.py line 1656): the download is blocked exactly
for a non-admin caller without the money permission. -/
def excel_report_allowed (is_admin can_money : Bool) : Bool :=
  is_admin || can_money

/-- The three money-bearing derived columns of the claim (sales_money,
delta_money, target_money under their display names). -/
def money_view_cols : List String := ["מכירות_בכסף", "תוספת_יעד_כסף", "יעד_בכסף"]

/-- The quantity-bearing derived columns of the claim (sales_qty, delta_qty,
target_qty and the monthly_* columns under their display names). -/
def qty_view_cols : List String :=
  ["מכירות_בכמות", "תוספת_יעד_כמות", "יעד_בכמות", "ממוצע_חודשי_כמות_2025",
   "תוספת_חודשית_כמות", "יעד_חודשי_כמות_2026"]

theorem editor_shown_subset (can_money can_qty : Bool) (picked : List String) :
    ∀ c ∈ editor_shown_cols can_money can_qty picked, c ∈ allowed_cols can_money can_qty := by
  intro c hc
  exact (List.mem_filter.mp hc).1

/-- C8: a non-admin caller whose permission set lacks the money column (here
additionally granting quantity, as in the scenario) never receives
sales_money, delta_money or target_money: not in the class editor whatever
columns were picked, not in the item table, not in the customer table; the
KPI block rendered is the quantity one and the Excel report is blocked. -/
theorem money_never_shown_without_permission (visible picked : List String)
    (hm : user_can_see_money false visible = false)
    (hq : user_can_see_qty false visible = true) :
    (∀ c ∈ editor_shown_cols (user_can_see_money false visible)
        (user_can_see_qty false visible) picked, c ∉ money_view_cols)
      ∧ (∀ l, item_editor_cols (user_can_see_money false visible)
            (user_can_see_qty false visible) = some l → ∀ c ∈ l, c ∉ money_view_cols)
      ∧ (∀ c ∈ cust_table_cols false, c ≠ "סהכ_כסף")
      ∧ kpi_block_choice (user_can_see_money false visible) = KpiKind.qty
      ∧ excel_report_allowed false (user_can_see_money false visible) = false := by
  rw [hm, hq]
  refine ⟨?_, ?_, by decide, rfl, rfl⟩
  · intro c hc
    have h1 : c ∈ allowed_cols false true := editor_shown_subset false true picked c hc
    revert h1
    have : ∀ x ∈ allowed_cols false true, x ∉ money_view_cols := by decide
    exact this c
  · intro l hl
    have : item_editor_cols false true
        = some ["קוד מיון", "שם פריט", "מכירות_בכמות", "ממוצע_חודשי_כמות_2025",
                "תוספת_יעד_כמות", "תוספת_חודשית_כמות", "יעד_בכמות",
                "יעד_חודשי_כמות_2026"] := by decide
    rw [this] at hl
    cases hl
    decide

/-- C8 witness: a caller with the quantity permission only, who even picks
the sales_money column in the editor multiselect, does not receive it, and
the Excel report stays blocked. -/
theorem money_never_shown_without_permission_wit :
    ("מכירות_בכסף" ∉ editor_shown_cols (user_can_see_money false [COL_QTY])
        (user_can_see_qty false [COL_QTY]) ["מכירות_בכסף"])
      ∧ excel_report_allowed false (user_can_see_money false [COL_QTY]) = false := by
  have h := money_never_shown_without_permission [COL_QTY] ["מכירות_בכסף"]
    (by decide) (by decide)
  exact ⟨fun hc => h.1 _ hc (by decide), h.2.2.2.2⟩

/-- C9 counterexample: the claim's final clause fails — a caller granted the
money column but not the quantity column (visible set = [COL_NET]) still
receives quantity-bearing columns: the item table includes the delta_qty
column (and its monthly/target companions), and the non-admin customer table
always carries total quantity. -/
theorem redaction_atomicity_cx :
    user_can_see_qty false [COL_NET] = false
      ∧ "תוספת_יעד_כמות" ∈ (item_editor_cols (user_can_see_money false [COL_NET])
          (user_can_see_qty false [COL_NET])).getD []
      ∧ "סהכ_כמות" ∈ cust_table_cols false := by
  decide

/-- C9 amended: the money-bearing columns are one atomic group — present in
the class editor's allowed set and in the item table exactly when the money
permission is granted; the quantity-bearing columns are an atomic group in
the class editor; but in the item table the delta/target/monthly quantity
columns are always present (whenever the table renders at all), and the
non-admin customer table always shows total quantity, with no dependence on
the quantity permission. -/
theorem redaction_atomicity_amended (can_money can_qty : Bool) :
    (∀ c ∈ money_view_cols, (c ∈ allowed_cols can_money can_qty ↔ can_money = true))
      ∧ (∀ c ∈ qty_view_cols, (c ∈ allowed_cols can_money can_qty ↔ can_qty = true))
      ∧ (∀ c ∈ money_view_cols,
          (c ∈ (item_editor_cols can_money can_qty).getD [] ↔ can_money = true))
      ∧ (can_money = true ∨ can_qty = true →
          ∀ c ∈ ["תוספת_יעד_כמות", "תוספת_חודשית_כמות", "יעד_בכמות", "יעד_חודשי_כמות_2026"],
            c ∈ (item_editor_cols can_money can_qty).getD [])
      ∧ "סהכ_כמות" ∈ cust_table_cols false := by
  cases can_money <;> cases can_qty <;> decide

/-- C9 witness: with money granted and quantity denied, sales_money is in
the class editor's allowed set and delta_qty is still in the item table. -/
theorem redaction_atomicity_amended_wit :
    "מכירות_בכסף" ∈ allowed_cols true false
      ∧ "תוספת_יעד_כמות" ∈ (item_editor_cols true false).getD [] :=
  ⟨((redaction_atomicity_amended true false).1 _ (by decide)).mpr rfl,
   (redaction_atomicity_amended true false).2.2.2.1 (Or.inl rfl) _ (by decide)⟩

-- =========================
-- C10 — normalize_sales_strict
-- =========================

/-- A raw numeric spreadsheet cell, classified by what
`pd.to_numeric(..., errors="coerce")` does with it: `num q` — a numeric value
or numeric string, parsed to q; `bad` — non-numeric text, coerced to NaN;
`null` — a missing cell (NaN). -/
inductive NumCell where
  | num (q : ℚ)
  | bad
  | null
deriving Repr, DecidableEq

/-- One raw row as `read_sales_excel_bytes` delivers it: text cells are
`Option String` with `none` for a missing (NaN) cell, numeric cells are
`NumCell`. -/
structure RawRow where
  agent : Option String
  account : Option String
  cls : Option String
  item : Option String
  qty : NumCell
  net : NumCell
deriving Repr, DecidableEq

/-- A raw DataFrame: its column-name list plus its rows. -/
structure RawDF where
  cols : List String
  rows : List RawRow
deriving Repr, DecidableEq

/-- One normalized output row: text fields are definite strings, quantity and
net money are definite numbers (no NaN can remain, by construction); `item`
is `none` when the optional item column was absent from the upload. -/
structure NormRow where
  agent : String
  account : String
  cls : String
  item : Option String
  qty : ℚ
  net : ℚ
deriving Repr, DecidableEq

/-- Python `astype(str)` on a cell: pandas renders a NaN cell as the string
"nan". -/
def pyStr : Option String → String
  | some s => s
  | none => "nan"

/-- Python `str.strip()`: remove leading and trailing whitespace (structural
char-list implementation so that it evaluates). -/
def pyStrip (s : String) : String :=
  String.mk (((s.data.dropWhile (·.isWhitespace)).reverse.dropWhile (·.isWhitespace)).reverse)

/-- `pd.to_numeric(..., errors="coerce").fillna(0.0)`: numeric stays, a
non-numeric or missing cell becomes 0.0. -/
def toNumericFill : NumCell → ℚ
  | NumCell.num q => q
  | NumCell.bad => 0
  | NumCell.null => 0

/-- The required columns of normalize_sales_strict (src/app.py line 453). -/
def required_cols : List String := [COL_AGENT, COL_ACCOUNT, COL_CLASS, COL_QTY, COL_NET]

/-- How normalize_sales_strict rewrites one kept row (src/app.py lines
461-469): strip the text columns (the item column only when present in the
upload), coerce quantity and net money to numbers with 0.0 fallback. -/
def normRowOf (df : RawDF) (r : RawRow) : NormRow :=
  { agent := pyStrip (pyStr r.agent)
    account := pyStrip (pyStr r.account)
    cls := pyStrip (pyStr r.cls)
    item := if COL_ITEM ∈ df.cols then some (pyStrip (pyStr r.item)) else none
    qty := toNumericFill r.qty
    net := toNumericFill r.net }

/-- normalize_sales_strict (src/app.py lines 452-474): raise (here: return
`Except.error` with the missing names) when a required column is absent; else
drop the rows whose account cell is missing and normalize the rest. (The
final `astype("category")` casts do not change values and are omitted.) -/
def normalize_sales_strict (df : RawDF) : Except (List String) (List NormRow) :=
  let missing := required_cols.filter fun c => decide (c ∉ df.cols)
  if missing ≠ [] then Except.error missing
  else Except.ok ((df.rows.filter fun r => r.account.isSome).map (normRowOf df))

/-- C10 counterexample: a row whose account cell is present but contains only
whitespace is not dropped — it normalizes, error-free, to a row whose account
is the empty string, so "every row has a non-empty account" fails (only
missing-account rows are dropped). -/
theorem normalize_nonempty_account_cx :
    normalize_sales_strict
        { cols := required_cols,
          rows := [{ agent := some "g", account := some " ", cls := some "A",
                     item := none, qty := NumCell.num 1, net := NumCell.num 2 }] }
      = Except.ok [{ agent := "g", account := "", cls := "A", item := none,
                     qty := 1, net := 2 }] := by
  rfl

/-- C10 amended: normalize_sales_strict sanitizes its input — it returns an
error exactly when some required column is absent; on success the output is
the input rows whose account cell is present (missing-account rows are
dropped; the surviving account may still be an empty string after
stripping), each rewritten by `normRowOf`; and the numeric coercion maps a
numeric cell to its value and a non-numeric or missing cell to 0.0, so no
NaN quantity or money value remains. -/
theorem normalize_sales_strict_spec (df : RawDF) :
    ((∃ c ∈ required_cols, c ∉ df.cols) ↔ (∃ m, normalize_sales_strict df = Except.error m))
      ∧ (∀ out, normalize_sales_strict df = Except.ok out →
          out = (df.rows.filter fun r => r.account.isSome).map (normRowOf df)
            ∧ ∀ row ∈ out, ∃ raw ∈ df.rows, raw.account.isSome ∧ row = normRowOf df raw)
      ∧ (∀ q, toNumericFill (NumCell.num q) = q)
      ∧ toNumericFill NumCell.bad = 0 ∧ toNumericFill NumCell.null = 0 := by
  have key : (required_cols.filter fun c => decide (c ∉ df.cols)) ≠ []
      ↔ ∃ c ∈ required_cols, c ∉ df.cols := by
    constructor
    · intro h
      rcases List.exists_mem_of_ne_nil _ h with ⟨c, hc⟩
      rcases List.mem_filter.mp hc with ⟨h1, h2⟩
      exact ⟨c, h1, by simpa using h2⟩
    · rintro ⟨c, hc, hnc⟩
      exact List.ne_nil_of_mem (List.mem_filter.mpr ⟨hc, by simpa using hnc⟩)
  refine ⟨?_, ?_, fun q => rfl, rfl, rfl⟩
  · by_cases h : (required_cols.filter fun c => decide (c ∉ df.cols)) ≠ []
    · refine ⟨fun _ => ?_, fun _ => key.mp h⟩
      refine ⟨required_cols.filter fun c => decide (c ∉ df.cols), ?_⟩
      simp only [normalize_sales_strict]
      rw [if_pos h]
    · refine ⟨fun hex => absurd (key.mpr hex) h, ?_⟩
      rintro ⟨m, hm⟩
      simp only [normalize_sales_strict] at hm
      rw [if_neg h] at hm
      cases hm
  · intro out hout
    simp only [normalize_sales_strict] at hout
    by_cases h : (required_cols.filter fun c => decide (c ∉ df.cols)) ≠ []
    · rw [if_pos h] at hout
      cases hout
    · rw [if_neg h] at hout
      have hout' : out = (df.rows.filter fun r => r.account.isSome).map (normRowOf df) := by
        injection hout with h2
        exact h2.symm
      refine ⟨hout', ?_⟩
      intro row hrow
      rw [hout'] at hrow
      rcases List.mem_map.mp hrow with ⟨raw, hraw, hrw⟩
      rcases List.mem_filter.mp hraw with ⟨hraw2, hacc⟩
      exact ⟨raw, hraw2, hacc, hrw.symm⟩

/-- The concrete raw table of the C10 witness: all required columns present,
one row with a missing account cell, one kept row with a non-numeric
quantity cell. -/
def dfWit : RawDF :=
  { cols := required_cols,
    rows := [{ agent := some "g", account := none, cls := some "A",
               item := none, qty := NumCell.num 1, net := NumCell.num 1 },
             { agent := some "g", account := some "b", cls := some "A",
               item := none, qty := NumCell.bad, net := NumCell.num 3 }] }

/-- C10 witness: with all required columns missing the function errors; on
`dfWit` the missing-account row is dropped and the bad quantity cell is
coerced to 0, as `normalize_sales_strict_spec` pins down. -/
theorem normalize_sales_strict_spec_wit :
    (∃ m, normalize_sales_strict { cols := [], rows := [] } = Except.error m)
      ∧ ([({ agent := "g", account := "b", cls := "A", item := none, qty := 0, net := 3 }
            : NormRow)]
          = (dfWit.rows.filter fun r => r.account.isSome).map (normRowOf dfWit)) :=
  ⟨(normalize_sales_strict_spec { cols := [], rows := [] }).1.mp
      ⟨COL_AGENT, by decide, by decide⟩,
   ((normalize_sales_strict_spec dfWit).2.1
      [{ agent := "g", account := "b", cls := "A", item := none, qty := 0, net := 3 }]
      (by rfl)).1⟩
end Uzeb
